import Mathlib

/-!
Verification development for the telegram-discord-summary-bot repository.

The definitions below are a shallow embedding of the Python sources:
  - src/summarizers/deepseek.py   (DeepSeekSummarizer.generate_summary, _generate_basic_summary)
  - src/main.py                   (_generate_and_post_summary, _process_and_post_summary)
  - src/clients/telegram_client.py (_get_channel_entity, collect_messages)
  - src/config.py                 (load_configuration)
Remote services (the Telegram transport, the DeepSeek HTTP endpoint, the Discord
sink) are modelled as explicit oracles / outcome parameters; everything the
Python code computes locally is translated function-for-function.
-/

namespace Bot

/-- Helper modelling Python str.strip() (remove whitespace at both ends).
Implemented over the character list so the kernel can evaluate it. -/
def pyStrip (s : String) : String :=
  String.mk (((s.data.dropWhile Char.isWhitespace).reverse.dropWhile
    Char.isWhitespace).reverse)

/-- Helper modelling Python s.split(':', 1): returns none when no colon occurs,
otherwise the text before the first colon and everything after it. -/
def pySplitFirstColon (s : String) : Option (String × String) :=
  match s.data.dropWhile (fun c => c ≠ ':') with
  | [] => none
  | _ :: rest => some (String.mk (s.data.takeWhile (fun c => c ≠ ':')), String.mk rest)

/-- Helper modelling Python s.split(':')[0]: the text before the first colon,
or the whole string when no colon occurs. -/
def pyBeforeColon (s : String) : String :=
  String.mk (s.data.takeWhile (fun c => c ≠ ':'))

/-- Helper modelling Python `':' in s`. -/
def pyHasColon (s : String) : Bool := s.data.contains ':'

/-- Helper modelling Python str.lower(). -/
def pyLower (s : String) : String := String.mk (s.data.map Char.toLower)

/-- Tokenizer worker for pySplitWs: walks the characters, accumulating the
current word reversed. -/
def wsTokensAux : List Char → List Char → List String
  | [], acc => if acc.isEmpty then [] else [String.mk acc.reverse]
  | c :: rest, acc =>
    if c.isWhitespace then
      if acc.isEmpty then wsTokensAux rest []
      else String.mk acc.reverse :: wsTokensAux rest []
    else wsTokensAux rest (c :: acc)

/-- Helper modelling Python s.split() with no arguments: split on whitespace
runs, discarding empty pieces. -/
def pySplitWs (s : String) : List String := wsTokensAux s.data []

/-- Helper modelling Python sep.join(xs). -/
def pyJoin (sep : String) : List String → String
  | [] => ""
  | [x] => x
  | x :: rest => x ++ sep ++ pyJoin sep rest

/-- Helper modelling Python `topic_name or default` on an optional string:
None and the empty string are falsy. -/
def pyOrStr (o : Option String) (d : String) : String :=
  match o with
  | some t => if t = "" then d else t
  | none => d

/-- Association-list get, modelling Python dict lookup (first matching key;
the insert below keeps keys unique, as a Python dict does). -/
def dictGet {α β : Type} [DecidableEq α] : List (α × β) → α → Option β
  | [], _ => none
  | p :: t, k => if p.1 = k then some p.2 else dictGet t k

/-- Association-list insert, modelling Python dict assignment d[k] = v:
an existing key keeps its position and gets the new value, a new key is
appended (CPython dicts preserve insertion order). -/
def dictInsert {α β : Type} [DecidableEq α] : List (α × β) → α → β → List (α × β)
  | [], k, v => [(k, v)]
  | p :: t, k, v => if p.1 = k then (k, v) :: t else p :: dictInsert t k v

/-- Stoplist excluded from key-term extraction in
DeepSeekSummarizer._generate_basic_summary (src/summarizers/deepseek.py). -/
def stopWords : List String :=
  ["about", "would", "should", "these", "there", "their", "other"]

/-- Loop body state of _generate_basic_summary: the authors dict (insertion
ordered, sender to message count) and the key-term collection. CPython's
set iteration order is unspecified, so the terms are modelled as a
first-insertion-ordered duplicate-free list; theorems below rely only on
membership and emptiness of this collection, never on its order. -/
def basicSummaryState (msgs : List String) : List (String × Nat) × List String :=
  msgs.foldl
    (fun st m =>
      match pySplitFirstColon m with
      | none => st
      | some (a, c) =>
        let author := pyStrip a
        let content := pyStrip c
        let cur := (dictGet st.1 author).getD 0
        let authors := dictInsert st.1 author (cur + 1)
        let toks := pySplitWs (pyLower content)
        let topics := toks.foldl
          (fun tp tok =>
            if tok.length > 5 ∧ tok ∉ stopWords then
              (if tok ∈ tp then tp else tp ++ [tok])
            else tp)
          st.2
        (authors, topics))
    ([], [])

/-- Model of DeepSeekSummarizer._generate_basic_summary
(src/summarizers/deepseek.py, lines 108-157): the deterministic local
fallback digest (participant tallies, key terms, counts, group title). -/
def generateBasicSummary (msgs : List String) (topicName : Option String) : String :=
  let st := basicSummaryState msgs
  let authorInfo := "**Participants**: " ++
    pyJoin ", " (st.1.map (fun p => p.1 ++ " (" ++ toString p.2 ++ ")"))
  let topicInfo :=
    if st.2.isEmpty then ""
    else "\n\n**Key terms**: " ++ pyJoin ", " (st.2.take 10)
  let stats := "\n\n**Messages**: " ++ toString msgs.length ++
    " | **Unique Participants**: " ++ toString st.1.length
  authorInfo ++ topicInfo ++ stats ++ "\n\nConversation happened in " ++
    pyOrStr topicName "this channel" ++ "."

/-- Outcome of the remote DeepSeek chat-completion call, as discriminated by
the except clauses of DeepSeekSummarizer.generate_summary: success,
APITimeoutError, APIError, or any other exception. -/
inductive RemoteOutcome where
  | ok (text : String)
  | apiTimeout (msg : String)
  | apiError (msg : String)
  | exc (msg : String)
deriving DecidableEq

/-- Model of the message-count trim in generate_summary: keep only the last
25 messages when more than 25 are given (Python message_texts[-25:]). -/
def trimmedMessages (msgs : List String) : List String :=
  if msgs.length > 25 then msgs.drop (msgs.length - 25) else msgs

/-- Newline join of the (already trimmed) messages. -/
def combinedText (msgs : List String) : String := pyJoin "\n" msgs

/-- Model of the length cap in generate_summary: keep the last 8000
characters when the combined text is longer (Python combined_text[-8000:]). -/
def truncatedText (s : String) : String :=
  if s.length > 8000 then s.drop (s.length - 8000) else s

/-- Text the remote backend receives inside the user prompt: trimmed
messages, joined, truncated. -/
def sentPayloadText (msgs : List String) : String :=
  truncatedText (combinedText (trimmedMessages msgs))

/-- Model of DeepSeekSummarizer.generate_summary
(src/summarizers/deepseek.py, lines 29-106) as a function of the remote
call's outcome: trims the input, then returns the remote text on success,
the wrapped _generate_basic_summary fallback on APITimeoutError, and the
literal failure strings on APIError or any other exception. -/
def deepseekSummary (msgs : List String) (topicName : Option String)
    (remote : RemoteOutcome) : String :=
  let ms := trimmedMessages msgs
  match remote with
  | .ok t => t
  | .apiTimeout _ =>
      "**Summary for " ++ pyOrStr topicName "This Topic" ++ " (Generated from " ++
        toString ms.length ++ " messages)**\n\n" ++
        generateBasicSummary ms topicName ++
        "\n\n*Note: This is a simplified summary due to DeepSeek API timeout.*"
  | .apiError e => "Unable to generate summary. API error: " ++ e
  | .exc e => "Unable to generate summary with DeepSeek. Error: " ++ e

/-- Outcome of one summary-generation thread as seen by
_process_and_post_summary in src/main.py: either asyncio.wait_for returned
the summarizer's result within the 120-second per-summary timeout, or it
raised asyncio.TimeoutError. -/
inductive SummaryCallOutcome where
  | completed (r : RemoteOutcome)
  | timedOut
deriving DecidableEq

/-- Model of the asyncio.TimeoutError branch of _process_and_post_summary
(src/main.py, lines 204-218): a simple summary naming only the message
count and the approximate participant count. -/
def timeoutFallbackBody (msgs : List String) (title : String) : String :=
  let senders := (msgs.filter (fun m => pyHasColon m)).map
    (fun m => pyStrip (pyBeforeColon m))
  let pc := senders.dedup.length
  "**Summary for " ++ title ++ "**\n\n" ++
    "This conversation had " ++ toString msgs.length ++
    " messages from approximately " ++ toString pc ++ " participants.\n\n" ++
    "*Note: Unable to generate a detailed summary due to DeepSeek API timeout.*"

/-- Model of _process_and_post_summary (src/main.py, lines 180-240) for the
DeepSeek summarizer: none when the message list is empty (nothing is
posted), otherwise the body handed to discord post_summary, which is the
thread's summary on completion and the inline fallback on the per-summary
timeout. -/
def processAndPostBody (msgs : List String) (title : String)
    (topicName : Option String) (oc : SummaryCallOutcome) : Option String :=
  if msgs.isEmpty then none
  else some (match oc with
    | .timedOut => timeoutFallbackBody msgs title
    | .completed r => deepseekSummary msgs topicName r)

/-- Substring test used to state "the body contains ..." claims. -/
def containsSub (hay pat : String) : Bool := decide (pat.toList <:+: hay.toList)

/-- LLM provider enum of src/config.py. -/
inductive Provider where
  | deepseek
  | anthropic
deriving DecidableEq

/-- Python provider.name.capitalize() as used for the Discord footer. -/
def providerName : Provider → String
  | .deepseek => "Deepseek"
  | .anthropic => "Anthropic"

/-- Value stored under one key of the configuration dict. -/
inductive ConfigVal where
  | s (v : String)
  | i (v : Int)
  | b (v : Bool)
  | il (v : List Int)
  | provider (v : Provider)
deriving DecidableEq

/-- Environment inputs of load_configuration after parsing (the .env reads
and int()/bool conversions of src/config.py, which are excluded
collaborators); the function below records which keys the returned dict
holds. -/
structure EnvSettings where
  apiId : Int
  apiHash : String
  phone : String
  sourceChannel : String
  topicIds : List Int
  includeMain : Bool
  discordToken : String
  discordDest : Int
  llmProvider : Provider
  llmApiKey : String
  summaryHour : Int
  summaryMinute : Int

/-- Model of load_configuration (src/config.py, lines 19-85): the exact
key set of the returned configuration dict, in construction order, with the
parsed environment values. -/
def load_configuration (e : EnvSettings) : List (String × ConfigVal) :=
  [("TELEGRAM_API_ID", ConfigVal.i e.apiId),
   ("TELEGRAM_API_HASH", ConfigVal.s e.apiHash),
   ("TELEGRAM_PHONE_NUMBER", ConfigVal.s e.phone),
   ("TELEGRAM_SOURCE_CHANNEL", ConfigVal.s e.sourceChannel),
   ("TELEGRAM_TOPIC_IDS", ConfigVal.il e.topicIds),
   ("INCLUDE_MAIN_CHANNEL", ConfigVal.b e.includeMain),
   ("DISCORD_TOKEN", ConfigVal.s e.discordToken),
   ("DISCORD_DESTINATION_CHANNEL_ID", ConfigVal.i e.discordDest),
   ("LLM_PROVIDER", ConfigVal.provider e.llmProvider),
   ("LLM_API_KEY", ConfigVal.s e.llmApiKey),
   ("SUMMARY_HOUR", ConfigVal.i e.summaryHour),
   ("SUMMARY_MINUTE", ConfigVal.i e.summaryMinute)]

/-- Outcome of one collect_messages transport interaction: the collected
lines, or an exception inside the try block. -/
inductive CollectOutcome where
  | ok (msgs : List String)
  | err (e : String)

/-- Telegram-side world for one run: the forum topics (id, title) returned
by get_forum_topics, and the collection outcome for the main channel and
for each topic id. -/
structure TelegramWorld where
  forumTopics : List (Int × String)
  mainCollect : CollectOutcome
  topicCollect : Int → CollectOutcome

/-- Model of the try/except of collect_messages (src/clients/
telegram_client.py, lines 176-178): a transport error is caught and turned
into the empty list. -/
def collectResult : CollectOutcome → List String
  | .ok m => m
  | .err _ => []

/-- Externally visible call made by one run of _generate_and_post_summary. -/
inductive OrchCall where
  | getForumTopics
  | collect (title : String)
  | summarize (title : String)
  | deliver (title : String)
deriving DecidableEq

/-- Model of the topic_names dict: populated by assignment per topic. -/
def buildTopicNames (topics : List (Int × String)) : List (Int × String) :=
  topics.foldl (fun d p => dictInsert d p.1 p.2) []

/-- Model of self.topic_names.get(topic_id, f"Topic TOPIC_ID"). -/
def topicTitle (names : List (Int × String)) (tid : Int) : String :=
  match dictGet names tid with
  | some t => t
  | none => "Topic " ++ toString tid

/-- Loop body of the collection await loop (src/main.py, lines 131-135):
`messages = await task; if messages: all_messages.extend(messages);
message_collections[topic_name] = messages`. -/
def collectStep (acc : List String × List (String × List String))
    (t : String × CollectOutcome) : List String × List (String × List String) :=
  let msgs := collectResult t.2
  if msgs.isEmpty then acc
  else (acc.1 ++ msgs, dictInsert acc.2 t.1 msgs)

/-- Result of one _generate_and_post_summary run: the call trace, the
summarized batches as (title, topic_name, messages), and the delivered
(posted title, posted body) pairs. -/
structure RunResult where
  trace : List OrchCall
  batches : List (String × String × List String)
  deliveries : List (String × String)

/-- Model of _generate_and_post_summary (src/main.py, lines 88-178) under
the DeepSeek summarizer, with summary and delivery tasks all completing
within the 300-second phase budget (real time is not modelled). The config
reads happen first, in source order, before any collection; a missing key
raises KeyError, which the function's top-level except swallows after zero
calls. Collections are awaited in task order; empty results are dropped;
batches get one summarize+deliver pair each, plus the synthetic "All
Channels and Topics" batch when more than one collection is non-empty. The
Discord embed formatting and provider footer of post_summary are outside
the modelled body. -/
def generateAndPostSummary (config : List (String × ConfigVal))
    (w : TelegramWorld) (soc : String → SummaryCallOutcome) : RunResult :=
  match dictGet config "TELEGRAM_SOURCE_CHANNEL",
      dictGet config "TELEGRAM_TOPIC_IDS",
      dictGet config "INCLUDE_MAIN_CHANNEL",
      dictGet config "MESSAGE_HISTORY_DAYS" with
  | some (.s _), some (.il topicIds), some (.b includeMain), some (.i _) =>
    let topicsTrace : List OrchCall :=
      if topicIds.isEmpty then [] else [OrchCall.getForumTopics]
    let topicNames :=
      if topicIds.isEmpty then [] else buildTopicNames w.forumTopics
    let tasks : List (String × CollectOutcome) :=
      (if includeMain then [("Main Channel", w.mainCollect)] else []) ++
      topicIds.map (fun tid => (topicTitle topicNames tid, w.topicCollect tid))
    let collectTrace := tasks.map (fun t => OrchCall.collect t.1)
    let res := tasks.foldl collectStep ([], [])
    let batches : List (String × String × List String) :=
      ((res.2.filter (fun p => !p.2.isEmpty)).map (fun p => (p.1, p.1, p.2))) ++
      (if res.2.length > 1 && !res.1.isEmpty then
        [("All Channels and Topics", "All", res.1)] else [])
    let sumTrace := batches.flatMap (fun b =>
      [OrchCall.summarize b.1, OrchCall.deliver ("Telegram Summary: " ++ b.1)])
    let deliveries := batches.map (fun b =>
      ("Telegram Summary: " ++ b.1,
        (processAndPostBody b.2.2 b.1 (some b.2.1) (soc b.1)).getD ""))
    ⟨topicsTrace ++ collectTrace ++ sumTrace, batches, deliveries⟩
  | _, _, _, _ => ⟨[], [], []⟩

/-- Configuration shape that reaches the collection pipeline (it carries
MESSAGE_HISTORY_DAYS, which per C2 the actual loader never produces). -/
def runConfig (topicIds : List Int) (includeMain : Bool) :
    List (String × ConfigVal) :=
  [("TELEGRAM_SOURCE_CHANNEL", ConfigVal.s "src"),
   ("TELEGRAM_TOPIC_IDS", ConfigVal.il topicIds),
   ("INCLUDE_MAIN_CHANNEL", ConfigVal.b includeMain),
   ("MESSAGE_HISTORY_DAYS", ConfigVal.i 1)]

/-- Auxiliary: a task whose collection yields nothing is neutral for the
collection await loop, wherever it sits in the task list. -/
theorem foldl_collectStep_middle (l1 l2 : List (String × CollectOutcome))
    (x : String × CollectOutcome) (hx : collectResult x.2 = [])
    (init : List String × List (String × List String)) :
    (l1 ++ x :: l2).foldl collectStep init = (l1 ++ l2).foldl collectStep init := by
  rw [List.foldl_append, List.foldl_cons, List.foldl_append]
  congr 1
  simp [collectStep, hx]

/-- Event during the COLLECTING phase: one collection coroutine beginning to
execute, or settling. -/
inductive PhaseEvent where
  | start (title : String)
  | finish (title : String)
deriving DecidableEq

/-- Model of the asyncio semantics of the collection loop in
_generate_and_post_summary (src/main.py, lines 107-135): calling the async
function collect_messages builds a bare coroutine object without scheduling
it (the code uses no create_task and no gather for collections), and the
body of a bare coroutine runs only when the coroutine is awaited, inside
the awaiting task; so the loop `for topic_name, task in collection_tasks:
messages = await task` starts and finishes each collection at its own
await, one task after another. -/
def collectionPhaseTrace (titles : List String) : List PhaseEvent :=
  titles.foldl (fun ev t => ev ++ [PhaseEvent.start t, PhaseEvent.finish t]) []

/-- Test for a start event. -/
def isStart : PhaseEvent → Bool
  | .start _ => true
  | .finish _ => false

/-- Test for a settle event. -/
def isFinish : PhaseEvent → Bool
  | .start _ => false
  | .finish _ => true

/-- The fan-out property the claim asserts of the COLLECTING phase: every
collection is started before any of them is awaited to completion, i.e.
every start event precedes every finish event. -/
def allStartedBeforeAnyFinish (tr : List PhaseEvent) : Prop :=
  ∀ i j : Fin tr.length,
    isStart (tr.get i) = true → isFinish (tr.get j) = true → i.1 < j.1

/-- Channel reference as supplied by configuration: a string or an integer,
exactly the two shapes _get_channel_entity distinguishes via str(channel_id).
Python dict keys keep the two shapes distinct, as this type does. -/
inductive ChanRef where
  | str (s : String)
  | int (n : Int)
deriving DecidableEq

/-- Transport handle returned by client.get_entity, opaque to the resolver. -/
abbrev Entity := Nat

/-- Model of Python str(channel_id). -/
def refStr : ChanRef → String
  | .str s => s
  | .int n => toString n

/-- Model of Python s.isdigit() on a character list: non-empty and all
digits. -/
def isDigitStr (l : List Char) : Bool := !l.isEmpty && l.all Char.isDigit

/-- Model of Python s.lstrip('-'): remove every leading dash. -/
def dropDashes (l : List Char) : List Char := l.dropWhile (fun c => c = '-')

/-- Model of Python s.startswith('-100'). -/
def startsDash100 : List Char → Bool
  | '-' :: '1' :: '0' :: '0' :: _ => true
  | _ => false

/-- Model of Python s.startswith('-'). -/
def startsDash : List Char → Bool
  | [] => false
  | c :: _ => c = '-'

/-- Decimal value of a digit list. -/
def digitsVal (l : List Char) : Nat := l.foldl (fun a c => a * 10 + (c.toNat - 48)) 0

/-- Model of Python int() on the strings _get_channel_entity builds: an
optional single leading dash followed by digits parses, anything else raises
ValueError (modelled as none). Whitespace, '+' signs and underscores never
occur in those strings. -/
def pyIntOfChars (l : List Char) : Option Int :=
  if startsDash l && isDigitStr (l.drop 1) then some (-(digitsVal (l.drop 1) : Int))
  else if isDigitStr l then some ((digitsVal l : Int))
  else none

/-- Result of one _get_channel_entity call: the returned entity or the raised
ValueError message, the resolver cache afterwards, the get_entity calls
issued to the transport in order, and the accumulated diagnostic reasons. -/
structure ResolveResult where
  result : Except String Entity
  cache : List (ChanRef × Entity)
  queries : List ChanRef
  errors : List String

/-- Message of the ValueError raised when every attempt fails
(src/clients/telegram_client.py, line 78). -/
def notFoundMsg (s : List Char) : String :=
  "Cannot find channel with ID " ++ String.mk s ++ ". Tried multiple formats."

/-- Attempt 3 of _get_channel_entity: if the reference is numeric after
stripping dashes and does not start with -100, retry with -100 prepended
(int can still raise for multi-dash inputs, which counts as a failed attempt
without a transport call). -/
def attempt3 (oracle : ChanRef → Except String Entity)
    (cache : List (ChanRef × Entity)) (ref : ChanRef) (s : List Char)
    (qs : List ChanRef) (errs : List String) : ResolveResult :=
  if isDigitStr (dropDashes s) && !startsDash100 s then
    match pyIntOfChars (['-', '1', '0', '0'] ++ (if startsDash s then s.drop 1 else s)) with
    | some n =>
      match oracle (.int n) with
      | .ok e => ⟨.ok e, dictInsert cache ref e, qs ++ [.int n], errs⟩
      | .error m => ⟨.error (notFoundMsg s), cache, qs ++ [.int n],
          errs ++ ["With -100 prefix failed: " ++ m]⟩
    | none => ⟨.error (notFoundMsg s), cache, qs,
        errs ++ ["With -100 prefix failed: invalid literal for int() with base 10"]⟩
  else ⟨.error (notFoundMsg s), cache, qs, errs⟩

/-- Attempt 2 of _get_channel_entity: if the reference starts with -100
followed by digits, retry with the bare id (prefix stripped); otherwise fall
through to attempt 3. -/
def attempt2 (oracle : ChanRef → Except String Entity)
    (cache : List (ChanRef × Entity)) (ref : ChanRef) (s : List Char)
    (qs : List ChanRef) (errs : List String) : ResolveResult :=
  if startsDash100 s && isDigitStr (s.drop 4) then
    match oracle (.int ((digitsVal (s.drop 4) : Int))) with
    | .ok e => ⟨.ok e, dictInsert cache ref e,
        qs ++ [.int ((digitsVal (s.drop 4) : Int))], errs⟩
    | .error m => attempt3 oracle cache ref s
        (qs ++ [.int ((digitsVal (s.drop 4) : Int))])
        (errs ++ ["Without -100 prefix failed: " ++ m])
  else attempt3 oracle cache ref s qs errs

/-- Model of _get_channel_entity (src/clients/telegram_client.py, lines
32-85): serve from the cache when present; otherwise try the reference as
given, then the prefix-stripped bare form, then the prefix-added form,
caching the first success keyed by the original reference and raising
ValueError when everything fails. -/
def getChannelEntity (oracle : ChanRef → Except String Entity)
    (cache : List (ChanRef × Entity)) (ref : ChanRef) : ResolveResult :=
  match dictGet cache ref with
  | some e => ⟨.ok e, cache, [], []⟩
  | none =>
    let s := (refStr ref).data
    match oracle ref with
    | .ok e => ⟨.ok e, dictInsert cache ref e, [ref], []⟩
    | .error m1 => attempt2 oracle cache ref s [ref] ["Original format failed: " ++ m1]

/-- Definition taken from the words of the spec (for the C7 refinement):
a reference is numeric when its string form is digits, optionally preceded
by a single minus sign. -/
def specNumericStr (l : List Char) : Bool :=
  isDigitStr l || (startsDash l && isDigitStr (l.drop 1))

/-- Definition taken from the words of the spec (for the C7 refinement):
the resolution attempts in the order the spec states, stopping at the first
success — (a) the reference as given; (b) only for a numeric reference
carrying the broadcast prefix, the bare form with the prefix stripped;
(c) only for a numeric reference without the prefix, the form with the
prefix added. -/
def specAttempts (oracle : ChanRef → Except String Entity) (ref : ChanRef) :
    List ChanRef :=
  let s := (refStr ref).data
  match oracle ref with
  | .ok _ => [ref]
  | .error _ =>
    if startsDash100 s && isDigitStr (s.drop 4) then
      [ref, .int ((digitsVal (s.drop 4) : Int))]
    else if specNumericStr s && !startsDash100 s then
      [ref, .int (-(digitsVal (['1', '0', '0'] ++
        (if startsDash s then s.drop 1 else s)) : Int))]
    else [ref]

/-- Auxiliary: looking up the freshly inserted key returns the freshly
inserted value. -/
theorem dictGet_dictInsert {α β : Type} [DecidableEq α]
    (c : List (α × β)) (k : α) (v : β) : dictGet (dictInsert c k v) k = some v := by
  induction c with
  | nil => simp [dictInsert, dictGet]
  | cons p t ih =>
    by_cases h : p.1 = k <;> simp [dictInsert, dictGet, h, ih]

/-- Auxiliary: attempt 3 either succeeds and caches the entity under the
original reference, or fails with the fixed not-found message and leaves the
cache unchanged. -/
theorem attempt3_cases (o : ChanRef → Except String Entity)
    (c : List (ChanRef × Entity)) (r : ChanRef) (s : List Char)
    (qs : List ChanRef) (es : List String) :
    (∃ e, (attempt3 o c r s qs es).result = Except.ok e ∧
      (attempt3 o c r s qs es).cache = dictInsert c r e) ∨
    ((attempt3 o c r s qs es).result = Except.error (notFoundMsg s) ∧
      (attempt3 o c r s qs es).cache = c) := by
  unfold attempt3
  split
  · split
    · split
      · exact Or.inl ⟨_, rfl, rfl⟩
      · exact Or.inr ⟨rfl, rfl⟩
    · exact Or.inr ⟨rfl, rfl⟩
  · exact Or.inr ⟨rfl, rfl⟩

/-- Auxiliary: the same dichotomy for attempt 2 (which may fall through to
attempt 3). -/
theorem attempt2_cases (o : ChanRef → Except String Entity)
    (c : List (ChanRef × Entity)) (r : ChanRef) (s : List Char)
    (qs : List ChanRef) (es : List String) :
    (∃ e, (attempt2 o c r s qs es).result = Except.ok e ∧
      (attempt2 o c r s qs es).cache = dictInsert c r e) ∨
    ((attempt2 o c r s qs es).result = Except.error (notFoundMsg s) ∧
      (attempt2 o c r s qs es).cache = c) := by
  unfold attempt2
  split
  · split
    · exact Or.inl ⟨_, rfl, rfl⟩
    · exact attempt3_cases ..
  · exact attempt3_cases ..

/-- Auxiliary: every _get_channel_entity call either returns an entity that
is afterwards in the cache under the original reference, or raises the fixed
not-found ValueError and leaves the cache unchanged. -/
theorem getChannelEntity_cases (o : ChanRef → Except String Entity)
    (c : List (ChanRef × Entity)) (r : ChanRef) :
    (∃ e, (getChannelEntity o c r).result = Except.ok e ∧
      dictGet (getChannelEntity o c r).cache r = some e) ∨
    ((getChannelEntity o c r).result =
        Except.error (notFoundMsg (refStr r).data) ∧
      (getChannelEntity o c r).cache = c) := by
  unfold getChannelEntity
  cases hc : dictGet c r with
  | some e => exact Or.inl ⟨e, rfl, hc⟩
  | none =>
    cases ho : o r with
    | ok e => exact Or.inl ⟨e, rfl, dictGet_dictInsert ..⟩
    | error m =>
      rcases attempt2_cases o c r (refStr r).data [r]
          ["Original format failed: " ++ m] with ⟨e, h1, h2⟩ | ⟨h1, h2⟩
      · exact Or.inl ⟨e, h1, h2 ▸ dictGet_dictInsert ..⟩
      · exact Or.inr ⟨h1, h2⟩

/-- Auxiliary: a resolver call whose reference is already cached returns the
cached entity with no transport call and no cache change. -/
theorem getChannelEntity_cached (o : ChanRef → Except String Entity)
    (c : List (ChanRef × Entity)) (r : ChanRef) (e : Entity)
    (h : dictGet c r = some e) :
    getChannelEntity o c r = ⟨Except.ok e, c, [], []⟩ := by
  unfold getChannelEntity
  rw [h]

/-- Auxiliary: Python int() on '-100' followed by base succeeds exactly when
base is all digits, yielding the negative prefixed value. -/
theorem parse_dash100 (base : List Char) :
    pyIntOfChars ('-' :: '1' :: '0' :: '0' :: base) =
      (if base.all Char.isDigit then
        some (-(digitsVal ('1' :: '0' :: '0' :: base) : Int))
      else none) := by
  have h3 : isDigitStr ('1' :: '0' :: '0' :: base) = base.all Char.isDigit := by
    unfold isDigitStr
    rw [List.all_cons, List.all_cons, List.all_cons,
      show Char.isDigit '1' = true from rfl, show Char.isDigit '0' = true from rfl]
    simp
  have h4 : isDigitStr ('-' :: '1' :: '0' :: '0' :: base) = false := by
    unfold isDigitStr
    rw [List.all_cons, show Char.isDigit '-' = false from rfl]
    simp
  unfold pyIntOfChars
  rw [show startsDash ('-' :: '1' :: '0' :: '0' :: base) = true from rfl,
    show ('-' :: '1' :: '0' :: '0' :: base).drop 1 = '1' :: '0' :: '0' :: base from rfl,
    h3, h4]
  simp

/-- Auxiliary: the combination "code guard of attempt 3 holds and the int()
parse succeeds" coincides with the spec-side condition "numeric reference
without the broadcast prefix". -/
theorem guard_iff (s : List Char) :
    (specNumericStr s && !startsDash100 s) =
      ((isDigitStr (dropDashes s) && !startsDash100 s) &&
        (if startsDash s then s.drop 1 else s).all Char.isDigit) := by
  cases s with
  | nil => rfl
  | cons c rest =>
    by_cases hc : c = '-'
    · subst hc
      by_cases hall : rest.all Char.isDigit
      · have hdrop : dropDashes ('-' :: rest) = rest := by
          cases rest with
          | nil => rfl
          | cons d t =>
            have hd : Char.isDigit d = true := by
              rw [List.all_cons] at hall
              exact ((Bool.and_eq_true _ _).mp hall).1
            have hnd : ¬ (d = '-') := by
              intro hEq
              rw [hEq] at hd
              exact absurd hd (by decide)
            simp [dropDashes, List.dropWhile_cons, hnd]
        simp [specNumericStr, isDigitStr, hdrop, hall, startsDash, List.all_cons,
          show Char.isDigit '-' = false from rfl]
      · simp [specNumericStr, isDigitStr, hall, startsDash, List.all_cons,
          show Char.isDigit '-' = false from rfl]
    · have hdrop : dropDashes (c :: rest) = c :: rest := by
        simp [dropDashes, List.dropWhile_cons, hc]
      have hsd : startsDash (c :: rest) = false := by
        simp [startsDash, hc]
      simp only [specNumericStr, isDigitStr, hdrop, hsd, List.all_cons,
        Bool.false_and, Bool.and_false, Bool.or_false, Bool.false_or,
        Bool.not_false, Bool.and_true, Bool.true_and, List.isEmpty_cons,
        Bool.not_true, if_false, Bool.false_eq_true, ite_false]
      cases hX : (Char.isDigit c && rest.all Char.isDigit) <;>
        cases hB : startsDash100 (c :: rest) <;> simp [hX, hB, List.all_cons]

/-- Auxiliary: the transport queries attempt 3 issues — one prefixed-form
query exactly when the spec-side "numeric without prefix" condition holds. -/
theorem attempt3_queries (o : ChanRef → Except String Entity)
    (c : List (ChanRef × Entity)) (r : ChanRef) (s : List Char)
    (qs : List ChanRef) (es : List String) :
    (attempt3 o c r s qs es).queries =
      qs ++ (if (specNumericStr s && !startsDash100 s) = true then
        [ChanRef.int (-(digitsVal ('1' :: '0' :: '0' ::
          (if startsDash s then s.drop 1 else s)) : Int))]
      else []) := by
  rw [guard_iff]
  unfold attempt3
  simp only [List.cons_append, List.nil_append]
  rw [parse_dash100]
  cases hg : (isDigitStr (dropDashes s) && !startsDash100 s) with
  | false => simp
  | true =>
    cases hall : (if startsDash s then s.drop 1 else s).all Char.isDigit with
    | false => simp
    | true =>
      split
      · split
        · rename_i n heq
          injection heq with hn
          subst hn
          split <;> simp
        · rename_i heq
          exact absurd heq (by simp)
      · rename_i h
        exact absurd rfl h

/-- Auxiliary: the transport queries attempt 2 issues (including the
fall-through to attempt 3). -/
theorem attempt2_queries (o : ChanRef → Except String Entity)
    (c : List (ChanRef × Entity)) (r : ChanRef) (s : List Char)
    (qs : List ChanRef) (es : List String) :
    (attempt2 o c r s qs es).queries =
      qs ++ (if (startsDash100 s && isDigitStr (s.drop 4)) = true then
          [ChanRef.int ((digitsVal (s.drop 4) : Int))]
        else if (specNumericStr s && !startsDash100 s) = true then
          [ChanRef.int (-(digitsVal ('1' :: '0' :: '0' ::
            (if startsDash s then s.drop 1 else s)) : Int))]
        else []) := by
  unfold attempt2
  cases hg2 : (startsDash100 s && isDigitStr (s.drop 4)) with
  | false => simp [attempt3_queries]
  | true =>
    have h100 : startsDash100 s = true := ((Bool.and_eq_true _ _).mp hg2).1
    cases ho : o (ChanRef.int ((digitsVal (s.drop 4) : Int))) with
    | ok e => simp [ho]
    | error m => simp [ho, attempt3_queries, h100]

/-- Message as yielded by the transport's iterator in collect_messages:
a resolved sender display name plus the message text. telethon's None text
(media-only messages) is modelled as the empty string, which Python's
`if not message.text` test treats identically. -/
structure TgMessage where
  senderDisplay : String
  text : String
deriving DecidableEq

/-- Formatted line appended for a retained message: "sender: text". -/
def formatLine (m : TgMessage) : String := m.senderDisplay ++ ": " ++ m.text

/-- Model of the message loop of collect_messages
(src/clients/telegram_client.py, lines 144-174): the transport yields
messages oldest-first (reverse=True); each message with falsy text
(`if not message.text: continue`) is skipped and every other message is
appended as "sender: text" in iteration order. -/
def collectLoop (msgs : List TgMessage) : List String :=
  msgs.foldl (fun acc m => if m.text = "" then acc else acc ++ [formatLine m]) []

/-- Test for empty-or-whitespace-only text, the condition the spec says is
excluded. -/
def isBlankText (s : String) : Bool := pyStrip s = ""

/-- Auxiliary: the collect loop with an arbitrary accumulator appends exactly
the formatted non-empty-text messages, in order. -/
theorem collectLoop_go (msgs : List TgMessage) (acc : List String) :
    msgs.foldl (fun acc m => if m.text = "" then acc else acc ++ [formatLine m]) acc =
      acc ++ (msgs.filter (fun m => m.text ≠ "")).map formatLine := by
  induction msgs generalizing acc with
  | nil => simp
  | cons m t ih =>
    by_cases h : m.text = "" <;>
      simp [List.foldl_cons, h, ih, List.filter_cons, List.append_assoc]

/-- Auxiliary: dropping characters from a string shortens it accordingly. -/
theorem stringLengthDrop (s : String) (n : Nat) : (s.drop n).length = s.length - n := by
  show (s.drop n).data.length = s.data.length - n
  rw [String.data_drop, List.length_drop]

/-- Auxiliary: the truncated text is at most 8000 characters and is a suffix
of the untruncated text. -/
theorem truncatedText_bounds (s : String) :
    (truncatedText s).length ≤ 8000 ∧ (truncatedText s).toList <:+ s.toList := by
  unfold truncatedText
  split
  · constructor
    · rw [stringLengthDrop]; omega
    · show (s.drop (s.length - 8000)).data <:+ s.data
      rw [String.data_drop]; exact List.drop_suffix _ _
  · exact ⟨by omega, List.suffix_refl _⟩

end Bot

namespace BotClaims
open Bot

set_option maxRecDepth 100000

/-- C1 (counterexample): for the batch ["alice: gm", "bob: gm too"], when the
summary thread exceeds the 120-second per-summary timeout of
_process_and_post_summary (asyncio.TimeoutError), the delivered body is the
inline count-only fallback and does NOT contain the per-sender participant
count "alice (1)" that the claim asserts. -/
theorem c1_counterexample :
    processAndPostBody ["alice: gm", "bob: gm too"] "Main Channel"
        (some "Main Channel") SummaryCallOutcome.timedOut =
      some ("**Summary for Main Channel**\n\nThis conversation had 2 messages " ++
        "from approximately 2 participants.\n\n*Note: Unable to generate a " ++
        "detailed summary due to DeepSeek API timeout.*") ∧
    containsSub ((processAndPostBody ["alice: gm", "bob: gm too"] "Main Channel"
        (some "Main Channel") SummaryCallOutcome.timedOut).getD "") "alice (1)" = false := by
  exact ⟨rfl, by decide⟩

/-- C1 (amended): for the batch ["alice: gm", "bob: gm too"], when the remote
DeepSeek call times out at the API-client level (APITimeoutError inside
generate_summary), the delivered body contains the per-sender counts
"alice (1)" and "bob (1)", the total message count 2, the unique-participant
count 2, and the degraded-summary note; when instead the 120-second
per-summary timeout of _process_and_post_summary fires, the delivered body
reports the total message count 2 and the approximate participant count 2
with a degraded note, but carries no per-sender counts. -/
theorem c1_amended_paths :
    containsSub ((processAndPostBody ["alice: gm", "bob: gm too"] "Main Channel"
        (some "Main Channel") (SummaryCallOutcome.completed
          (RemoteOutcome.apiTimeout "t"))).getD "") "alice (1)" = true ∧
    containsSub ((processAndPostBody ["alice: gm", "bob: gm too"] "Main Channel"
        (some "Main Channel") (SummaryCallOutcome.completed
          (RemoteOutcome.apiTimeout "t"))).getD "") "bob (1)" = true ∧
    containsSub ((processAndPostBody ["alice: gm", "bob: gm too"] "Main Channel"
        (some "Main Channel") (SummaryCallOutcome.completed
          (RemoteOutcome.apiTimeout "t"))).getD "")
        "**Messages**: 2 | **Unique Participants**: 2" = true ∧
    containsSub ((processAndPostBody ["alice: gm", "bob: gm too"] "Main Channel"
        (some "Main Channel") (SummaryCallOutcome.completed
          (RemoteOutcome.apiTimeout "t"))).getD "")
        "*Note: This is a simplified summary due to DeepSeek API timeout.*" = true ∧
    containsSub ((processAndPostBody ["alice: gm", "bob: gm too"] "Main Channel"
        (some "Main Channel") SummaryCallOutcome.timedOut).getD "")
        "This conversation had 2 messages from approximately 2 participants." = true ∧
    containsSub ((processAndPostBody ["alice: gm", "bob: gm too"] "Main Channel"
        (some "Main Channel") SummaryCallOutcome.timedOut).getD "")
        "DeepSeek API timeout" = true ∧
    containsSub ((processAndPostBody ["alice: gm", "bob: gm too"] "Main Channel"
        (some "Main Channel") SummaryCallOutcome.timedOut).getD "") "bob (1)" = false := by
  decide

/-- C3 (counterexample): a message whose text is the single space " " is
whitespace-only (it strips to the empty string), yet collect_messages keeps
it: the output for the one-message sequence is ["alice:  "], not [] — so the
output does not exclude every message with whitespace-only text. -/
theorem c3_counterexample :
    collectLoop [TgMessage.mk "alice" " "] = ["alice:  "] ∧
    isBlankText " " = true := by
  exact ⟨rfl, rfl⟩

/-- C3 (amended): for every sequence of messages provided by the transport,
the output of collect_messages is exactly the formatted non-empty-text
messages in the transport's chronological (oldest-first) order: messages
with empty text are excluded, but whitespace-only non-empty text is
retained. -/
theorem c3_collect_order_and_empty_filter :
    ∀ msgs : List TgMessage,
      collectLoop msgs = (msgs.filter (fun m => m.text ≠ "")).map formatLine := by
  intro msgs
  simpa using collectLoop_go msgs []

/-- Transport oracle for which every get_entity call fails. -/
def failOracle : ChanRef → Except String Entity := fun _ => Except.error "boom"

/-- Transport oracle for which every get_entity call succeeds. -/
def okOracle : ChanRef → Except String Entity := fun _ => Except.ok 7

/-- C4 (counterexample): with a transport where every attempt fails with
"boom", resolving the reference 5 raises the fixed message "Cannot find
channel with ID 5. Tried multiple formats."; the two accumulated per-attempt
reasons exist but neither (hence not their concatenation) occurs in the
raised payload. -/
theorem c4_counterexample :
    (getChannelEntity failOracle [] (ChanRef.int 5)).result =
      Except.error "Cannot find channel with ID 5. Tried multiple formats." ∧
    (getChannelEntity failOracle [] (ChanRef.int 5)).errors =
      ["Original format failed: boom", "With -100 prefix failed: boom"] ∧
    containsSub "Cannot find channel with ID 5. Tried multiple formats."
      "Original format failed: boom" = false ∧
    containsSub "Cannot find channel with ID 5. Tried multiple formats."
      "With -100 prefix failed: boom" = false := by
  exact ⟨rfl, rfl, by decide, by decide⟩

/-- C4 (amended): whenever every resolution attempt fails, _get_channel_entity
raises a ValueError whose payload names the original reference and reports
that multiple formats were tried; the accumulated per-attempt reasons are
kept only for logging and are not carried in the payload. -/
theorem c4_error_payload (o : ChanRef → Except String Entity)
    (c : List (ChanRef × Entity)) (r : ChanRef) (m : String)
    (h : (getChannelEntity o c r).result = Except.error m) :
    m = "Cannot find channel with ID " ++ refStr r ++ ". Tried multiple formats." := by
  rcases getChannelEntity_cases o c r with ⟨e, h1, _⟩ | ⟨h1, _⟩
  · rw [h] at h1; cases h1
  · rw [h] at h1
    exact Except.error.inj h1

/-- C4 (witness): the amended statement applied to the all-failing transport
and the reference 5. -/
theorem c4_witness :
    "Cannot find channel with ID 5. Tried multiple formats." =
      "Cannot find channel with ID " ++ refStr (ChanRef.int 5) ++
        ". Tried multiple formats." :=
  c4_error_payload failOracle [] (ChanRef.int 5) _ rfl

/-- C6: when a _get_channel_entity call succeeds, the entity is stored in the
resolver's cache keyed by the original reference, and a second call for the
same reference is served from the cache: it returns the same entity, issues
zero transport lookups, and leaves the cache unchanged. -/
theorem c6_cache_idempotent (o : ChanRef → Except String Entity)
    (c : List (ChanRef × Entity)) (r : ChanRef) (e : Entity)
    (h : (getChannelEntity o c r).result = Except.ok e) :
    dictGet (getChannelEntity o c r).cache r = some e ∧
    getChannelEntity o (getChannelEntity o c r).cache r =
      ⟨Except.ok e, (getChannelEntity o c r).cache, [], []⟩ := by
  have hc : dictGet (getChannelEntity o c r).cache r = some e := by
    rcases getChannelEntity_cases o c r with ⟨e2, h1, h2⟩ | ⟨h1, _⟩
    · rw [h] at h1
      injection h1 with he
      rw [he]; exact h2
    · rw [h] at h1; cases h1
  exact ⟨hc, getChannelEntity_cached o _ r e hc⟩

/-- C6 (witness): a fresh resolver, an always-succeeding transport, and the
reference "mychannel". -/
theorem c6_witness :
    dictGet (getChannelEntity okOracle [] (ChanRef.str "mychannel")).cache
      (ChanRef.str "mychannel") = some 7 ∧
    getChannelEntity okOracle
        (getChannelEntity okOracle [] (ChanRef.str "mychannel")).cache
        (ChanRef.str "mychannel") =
      ⟨Except.ok 7,
        (getChannelEntity okOracle [] (ChanRef.str "mychannel")).cache, [], []⟩ :=
  c6_cache_idempotent okOracle [] (ChanRef.str "mychannel") 7 rfl

/-- C7: for every channel reference not yet cached, _get_channel_entity
issues its transport lookups in exactly the spec's order, stopping at the
first success: (a) the reference as given; (b) only for a numeric reference
carrying the -100 broadcast prefix, the bare form with the prefix stripped;
(c) only for a numeric reference without the prefix, the form with the
prefix added. -/
theorem c7_attempt_order (o : ChanRef → Except String Entity)
    (cache : List (ChanRef × Entity)) (r : ChanRef)
    (h : dictGet cache r = none) :
    (getChannelEntity o cache r).queries = specAttempts o r := by
  unfold getChannelEntity specAttempts
  rw [h]
  cases ho : o r with
  | ok e => rfl
  | error m =>
    rw [attempt2_queries]
    simp only [List.cons_append, List.nil_append]
    cases hg2 : (startsDash100 (refStr r).data &&
        isDigitStr ((refStr r).data.drop 4)) with
    | true => simp
    | false =>
      cases hsp : (specNumericStr (refStr r).data &&
          !startsDash100 (refStr r).data) <;> simp

/-- C7 (witness): the attempt order at the integer reference 5 under the
all-failing transport — the trace is the reference as given followed by the
prefixed form -1005. -/
theorem c7_witness :
    (getChannelEntity failOracle [] (ChanRef.int 5)).queries =
      specAttempts failOracle (ChanRef.int 5) :=
  c7_attempt_order failOracle [] (ChanRef.int 5) rfl

/-- C2: for every configuration dict produced by load_configuration, the key
MESSAGE_HISTORY_DAYS is absent, and a run of _generate_and_post_summary on
such a configuration hits the KeyError before any collection, which the
top-level except of the run swallows: the run completes with an empty call
trace — zero collection, summarization, and delivery calls. -/
theorem c2_missing_history_days (e : EnvSettings) (w : TelegramWorld)
    (soc : String → SummaryCallOutcome) :
    dictGet (load_configuration e) "MESSAGE_HISTORY_DAYS" = none ∧
    (generateAndPostSummary (load_configuration e) w soc).trace = [] ∧
    (generateAndPostSummary (load_configuration e) w soc).deliveries = [] := by
  exact ⟨rfl, rfl, rfl⟩

/-- C9 (code_bug evidence): with two collection sources, the COLLECTING
phase trace produced by the bare-coroutine await loop is strictly
sequential — the second collection starts only after the first has
finished — so it is false that all collection tasks are started before any
is awaited; the phase does complete with every task settled. -/
theorem c9_sequential_collection :
    collectionPhaseTrace ["Main Channel", "Topic 7"] =
      [PhaseEvent.start "Main Channel", PhaseEvent.finish "Main Channel",
       PhaseEvent.start "Topic 7", PhaseEvent.finish "Topic 7"] ∧
    ¬ allStartedBeforeAnyFinish (collectionPhaseTrace ["Main Channel", "Topic 7"]) ∧
    PhaseEvent.finish "Main Channel" ∈ collectionPhaseTrace ["Main Channel", "Topic 7"] ∧
    PhaseEvent.finish "Topic 7" ∈ collectionPhaseTrace ["Main Channel", "Topic 7"] := by
  refine ⟨rfl, ?_, by decide, by decide⟩
  intro h
  have := h ⟨2, by decide⟩ ⟨1, by decide⟩ (by decide) (by decide)
  exact absurd this (by decide)

/-- C5: in a run where the main channel and two sub-groups (with distinct
titles) each yield a non-empty batch, exactly 4 summaries are produced and
delivered — the 3 group batches in processing order plus the synthetic
"All Channels and Topics" batch whose content is the concatenation of the
contributing batches in group-processing order; in a run where only the
main channel yields a (non-empty) batch, exactly 1 summary is produced and
no synthetic aggregate is built. -/
theorem c5_batch_fanout (t1 t2 : Int) (w : TelegramWorld)
    (M T1 T2 : List String) (soc : String → SummaryCallOutcome) (τ1 τ2 : String)
    (ht1 : topicTitle (buildTopicNames w.forumTopics) t1 = τ1)
    (ht2 : topicTitle (buildTopicNames w.forumTopics) t2 = τ2)
    (hm : w.mainCollect = CollectOutcome.ok M)
    (h1 : w.topicCollect t1 = CollectOutcome.ok T1)
    (h2 : w.topicCollect t2 = CollectOutcome.ok T2)
    (hMne : M ≠ []) (hT1ne : T1 ≠ []) (hT2ne : T2 ≠ [])
    (hd1 : τ1 ≠ "Main Channel") (hd2 : τ2 ≠ "Main Channel") (hd12 : τ1 ≠ τ2) :
    ((generateAndPostSummary (runConfig [t1, t2] true) w soc).batches =
        [("Main Channel", "Main Channel", M), (τ1, τ1, T1), (τ2, τ2, T2),
          ("All Channels and Topics", "All", M ++ T1 ++ T2)] ∧
      (generateAndPostSummary (runConfig [t1, t2] true) w soc).deliveries.length = 4) ∧
    ∀ (w2 : TelegramWorld) (M2 : List String),
      w2.mainCollect = CollectOutcome.ok M2 → M2 ≠ [] →
      (generateAndPostSummary (runConfig [] true) w2 soc).batches =
          [("Main Channel", "Main Channel", M2)] ∧
        (generateAndPostSummary (runConfig [] true) w2 soc).deliveries.length = 1 := by
  have hd1' : ("Main Channel" : String) ≠ τ1 := Ne.symm hd1
  have hd2' : ("Main Channel" : String) ≠ τ2 := Ne.symm hd2
  obtain ⟨a1, M1, rfl⟩ := List.exists_cons_of_ne_nil hMne
  obtain ⟨b1, U1, rfl⟩ := List.exists_cons_of_ne_nil hT1ne
  obtain ⟨c1, V1, rfl⟩ := List.exists_cons_of_ne_nil hT2ne
  refine ⟨⟨?_, ?_⟩, ?_⟩
  · simp [generateAndPostSummary, runConfig, dictGet, collectStep, collectResult,
      dictInsert, ht1, ht2, hm, h1, h2, hd1', hd2', hd12, List.append_assoc]
  · simp [generateAndPostSummary, runConfig, dictGet, collectStep, collectResult,
      dictInsert, ht1, ht2, hm, h1, h2, hd1', hd2', hd12]
  · intro w2 M2 hm2 hM2ne
    obtain ⟨d1, W1, rfl⟩ := List.exists_cons_of_ne_nil hM2ne
    constructor
    · simp [generateAndPostSummary, runConfig, dictGet, collectStep, collectResult,
        dictInsert, hm2]
    · simp [generateAndPostSummary, runConfig, dictGet, collectStep, collectResult,
        dictInsert, hm2]

/-- World for the C5 witness: no forum metadata, one main-channel message,
one message in each of the topics 1 and 2. -/
def c5World : TelegramWorld :=
  ⟨[], CollectOutcome.ok ["a: x"],
    fun tid => if tid = 1 then CollectOutcome.ok ["b: y"]
      else CollectOutcome.ok ["c: z"]⟩

/-- C5 (witness): the three-batch scenario evaluated at a concrete world. -/
theorem c5_witness :
    (generateAndPostSummary (runConfig [1, 2] true) c5World
        (fun _ => SummaryCallOutcome.timedOut)).batches =
      [("Main Channel", "Main Channel", ["a: x"]),
        ("Topic 1", "Topic 1", ["b: y"]), ("Topic 2", "Topic 2", ["c: z"]),
        ("All Channels and Topics", "All", ["a: x", "b: y", "c: z"])] ∧
    (generateAndPostSummary (runConfig [1, 2] true) c5World
        (fun _ => SummaryCallOutcome.timedOut)).deliveries.length = 4 :=
  (c5_batch_fanout 1 2 c5World ["a: x"] ["b: y"] ["c: z"]
    (fun _ => SummaryCallOutcome.timedOut) "Topic 1" "Topic 2"
    rfl rfl rfl rfl rfl (by decide) (by decide) (by decide)
    (by decide) (by decide) (by decide)).1

/-- C8: a group whose collection raises a transport error contributes the
empty sequence (the error is caught inside collect_messages and never
propagates), and the run behaves exactly as the run without that group:
the same batches are summarized and the same deliveries are posted, so the
failing group is excluded while every other group is unaffected. -/
theorem c8_collection_error_isolated (pre post : List Int) (t : Int) (im : Bool)
    (w : TelegramWorld) (soc : String → SummaryCallOutcome) (e : String)
    (ht : w.topicCollect t = CollectOutcome.err e) :
    collectResult (w.topicCollect t) = [] ∧
    (generateAndPostSummary (runConfig (pre ++ t :: post) im) w soc).batches =
      (generateAndPostSummary (runConfig (pre ++ post) im) w soc).batches ∧
    (generateAndPostSummary (runConfig (pre ++ t :: post) im) w soc).deliveries =
      (generateAndPostSummary (runConfig (pre ++ post) im) w soc).deliveries := by
  have hcr : collectResult (w.topicCollect t) = [] := by rw [ht]; rfl
  rcases Decidable.em (pre ++ post = []) with hpp | hpp
  · obtain ⟨rfl, rfl⟩ := List.append_eq_nil.mp hpp
    refine ⟨hcr, ?_, ?_⟩ <;>
      cases im <;>
        simp [generateAndPostSummary, runConfig, dictGet, ht, collectStep,
          collectResult]
  · have hppf : (pre ++ post).isEmpty = false := by
      cases h : (pre ++ post).isEmpty
      · rfl
      · exact absurd (List.isEmpty_iff.mp h) hpp
    have hane : (pre ++ t :: post).isEmpty = false := by
      cases pre <;> rfl
    refine ⟨hcr, ?_, ?_⟩ <;>
      cases im <;>
        simp [generateAndPostSummary, runConfig, dictGet, ht, collectStep,
          collectResult, hppf, hane, List.foldl_append, List.map_append]

/-- World for the C8 witness: topic 9's collection raises a transport
error, every other source collects one message. -/
def c8World : TelegramWorld :=
  ⟨[], CollectOutcome.ok ["m: hi"],
    fun tid => if tid = 9 then CollectOutcome.err "socket reset"
      else CollectOutcome.ok ["u: hey"]⟩

/-- C8 (witness): a run with the main channel disabled and topics 1, 9, 2
where topic 9 errors behaves as the run over topics 1, 2 alone. -/
theorem c8_witness :
    collectResult (c8World.topicCollect 9) = [] ∧
    (generateAndPostSummary (runConfig [1, 9, 2] false) c8World
        (fun _ => SummaryCallOutcome.timedOut)).batches =
      (generateAndPostSummary (runConfig [1, 2] false) c8World
        (fun _ => SummaryCallOutcome.timedOut)).batches ∧
    (generateAndPostSummary (runConfig [1, 9, 2] false) c8World
        (fun _ => SummaryCallOutcome.timedOut)).deliveries =
      (generateAndPostSummary (runConfig [1, 2] false) c8World
        (fun _ => SummaryCallOutcome.timedOut)).deliveries :=
  c8_collection_error_isolated [1] [2] 9 false c8World
    (fun _ => SummaryCallOutcome.timedOut) "socket reset" rfl

/-- C10: for every input list of messages, generate_summary keeps at most 25
messages (exactly the trailing ones: the trimmed list is a suffix of the
input), and the text built for the remote backend is at most 8000 characters
and is a trailing segment of the newline-join of the trimmed messages. -/
theorem c10_deepseek_input_bounds (msgs : List String) :
    (trimmedMessages msgs).length ≤ 25 ∧
    trimmedMessages msgs <:+ msgs ∧
    (sentPayloadText msgs).length ≤ 8000 ∧
    (sentPayloadText msgs).toList <:+ (combinedText (trimmedMessages msgs)).toList := by
  refine ⟨?_, ?_, (truncatedText_bounds _).1, (truncatedText_bounds _).2⟩
  · unfold trimmedMessages
    split
    · rw [List.length_drop]; omega
    · omega
  · unfold trimmedMessages
    split
    · exact List.drop_suffix _ _
    · exact List.suffix_refl _

end BotClaims
